import Mathlib

/-!
Shallow embedding of the rinha-2025 payment dispatch pipeline
(load balancer, gateway, worker pool, batching store) together with
proofs checking the natural-language specification against the code.

Machine integers are modelled as `Nat` with explicit `% 2^w` where
overflow matters; fallible operations return `Option` / sum types;
external collaborators (HTTP transport, the JSON and RFC 3339 parsers
of external crates, the database) enter as explicit parameters or
oracles, never as hidden state.
-/

namespace Rinha

/-- Rust `usize` modulus (64-bit target): `AtomicUsize::fetch_add` wraps at `2^64`. -/
def USIZE_MOD : Nat := 2 ^ 64

/-- Rust `u32` modulus, used by the `wrapping_mul` / `wrapping_add` in `calc_backoff`. -/
def U32_MOD : Nat := 2 ^ 32

/-- From `src/worker/src/processor_type.rs`: `enum ProcessorType { Default, Fallback }`. -/
inductive ProcessorType
  | Default
  | Fallback
deriving DecidableEq, Repr

/-- A `rust_decimal::Decimal` is a scaled integer `mantissa · 10^(-scale)`.
None of the verified claims computes with amounts, so this faithful
carrier is only moved around. -/
structure Decimal where
  mantissa : Int
  scale : Nat
deriving DecidableEq, Repr

/-- From `src/worker/src/payment_message.rs`: `amount: Decimal`,
`correlation_id: uuid::Uuid` (an opaque 128-bit value, modelled as `Nat`),
`retry_count: u32` (defaulting to 0 on deserialize; kept as `Nat` — the
`retry` guard proves it never reaches `2^32`). -/
structure PaymentMessage where
  amount : Decimal
  correlation_id : Nat
  retry_count : Nat
deriving DecidableEq, Repr

/-- From `src/worker/src/payment.rs`: the persistence record built just
before a processor call. `requested_at` is an opaque timestamp. -/
structure Payment where
  amount : Decimal
  correlation_id : Nat
  processor : ProcessorType
  requested_at : Nat
deriving DecidableEq, Repr

/-- From `src/worker/src/health_monitor.rs`:
`ProcessorHealth { failing: bool, min_response_time: u16 }`. -/
structure ProcessorHealth where
  failing : Bool
  min_response_time : Nat
deriving DecidableEq, Repr

/-- From `src/worker/src/health_monitor.rs`:
`const MAX_ACCEPTABLE_RESPONSE_TIME: u16 = 50`. -/
def MAX_ACCEPTABLE_RESPONSE_TIME : Nat := 50

/-- The health map. The source keeps a `HashMap<ProcessorType, ProcessorHealth>`
holding exactly the keys `Default` and `Fallback` for the whole process
lifetime (both are inserted in `HealthMonitor::new` and never removed), so a
total function is a faithful carrier. -/
def HealthMap := ProcessorType → ProcessorHealth

/-- The URL map of the monitor, same representation argument as `HealthMap`. -/
def UrlMap := ProcessorType → String

/-- State of a `HealthMonitor`: its two probe URLs and the current health map. -/
structure HealthMonitor where
  urls : UrlMap
  healths : HealthMap

/-- From `src/worker/src/health_monitor.rs`, `HealthMonitor::new`: both
healths start `{ failing: false, min_response_time: 0 }`; the url map binds
`Default` to the first argument and `Fallback` to the second. -/
def HealthMonitor.new (default_processor_url fallback_processor_url : String) :
    HealthMonitor where
  urls := fun p =>
    match p with
    | ProcessorType.Default => default_processor_url
    | ProcessorType.Fallback => fallback_processor_url
  healths := fun _ => { failing := false, min_response_time := 0 }

/-- Error type of `next_processor` (`HealthMonitorError::BothProcessorsFailing`). -/
inductive HealthMonitorError
  | BothProcessorsFailing
deriving DecidableEq, Repr

/-- From `src/worker/src/health_monitor.rs` lines 144-157, the ACTIVE
`next_processor` variant: it reads only the `Default` entry of the health
map; if `failing || min_response_time > MAX_ACCEPTABLE_RESPONSE_TIME` it
returns `Err(BothProcessorsFailing)`, otherwise `Ok(Default)`.
The `Fallback` entry is never consulted. -/
def HealthMonitor.next_processor (m : HealthMonitor) :
    Except HealthMonitorError ProcessorType :=
  let default_health := m.healths ProcessorType.Default
  let default_failing :=
    default_health.failing ||
      decide (default_health.min_response_time > MAX_ACCEPTABLE_RESPONSE_TIME)
  if default_failing then
    Except.error HealthMonitorError.BothProcessorsFailing
  else
    Except.ok ProcessorType.Default

/-- A processor is failing, in the sense of the specification glossary:
`failing == true` OR `min_response_time > 50 ms`. This is also exactly the
test the code applies (to the Default entry only). -/
def ProcessorHealth.isFailing (h : ProcessorHealth) : Bool :=
  h.failing || decide (h.min_response_time > MAX_ACCEPTABLE_RESPONSE_TIME)

/-- A health map with the Default processor failing and the Fallback healthy:
the configuration on which the specified tri-state policy and the shipped
code part ways. -/
def degradedCaseHealths : HealthMap := fun p =>
  match p with
  | ProcessorType.Default => { failing := true, min_response_time := 0 }
  | ProcessorType.Fallback => { failing := false, min_response_time := 10 }

/-- A monitor holding `degradedCaseHealths` (the urls are irrelevant to
`next_processor`). -/
def degradedCaseMonitor : HealthMonitor where
  urls := fun _ => ""
  healths := degradedCaseHealths

/-- From `src/worker/src/main.rs` lines 16-22: the worker configuration
carries distinct `default_processor_url` and `fallback_processor_url`
fields, both read from the environment. -/
structure WorkerConfig where
  listen_path : String
  num_workers : Nat
  postgres_url : String
  default_processor_url : String
  fallback_processor_url : String

/-- From `src/worker/src/main.rs` lines 70-73: worker `main` constructs the
health monitor as
`HealthMonitor::new(config.default_processor_url.clone().as_str(),
config.default_processor_url.clone().as_str())` — the default URL is passed
for BOTH positions. -/
def workerMainHealthMonitor (config : WorkerConfig) : HealthMonitor :=
  HealthMonitor.new config.default_processor_url config.default_processor_url

/-- A concrete worker configuration with distinct processor URLs. -/
def distinctUrlConfig : WorkerConfig where
  listen_path := "/tmp/worker.sock"
  num_workers := 4
  postgres_url := "postgres://localhost/rinha"
  default_processor_url := "http://default:8080"
  fallback_processor_url := "http://fallback:8080"

/-- C1: the code's `next_processor`, evaluated at the failing input
(Default failing, Fallback healthy): it returns
`Err(BothProcessorsFailing)` even though the Fallback entry is healthy,
whereas the claimed tri-state policy requires `Ok(Fallback)` there. The
conjuncts pin down the health state so the divergence is explicit. -/
theorem next_processor_ignores_healthy_fallback :
    degradedCaseMonitor.next_processor =
      Except.error HealthMonitorError.BothProcessorsFailing ∧
    (degradedCaseMonitor.healths ProcessorType.Default).isFailing = true ∧
    (degradedCaseMonitor.healths ProcessorType.Fallback).isFailing = false := by
  refine ⟨rfl, rfl, rfl⟩

/-- C2: the worker's `main` wires the health monitor with
`default_processor_url` in BOTH positions, so on a configuration with
distinct URLs the monitor's Fallback URL equals the Default URL and
differs from the configured Fallback URL — contradicting the claim that
each processor's own endpoint is probed. -/
theorem worker_main_duplicates_default_url :
    (workerMainHealthMonitor distinctUrlConfig).urls ProcessorType.Fallback =
      distinctUrlConfig.default_processor_url ∧
    (workerMainHealthMonitor distinctUrlConfig).urls ProcessorType.Fallback ≠
      distinctUrlConfig.fallback_processor_url := by
  refine ⟨rfl, by decide⟩

/-- Error type of the processor client
(`src/worker/src/payment_processor.rs`): `InvalidPayment | Unavailable`. -/
inductive PaymentProcessorError
  | InvalidPayment
  | Unavailable
deriving DecidableEq, Repr

/-- Outcome of the HTTP exchange inside `PaymentProcessor::process`, as seen
by the classification code: either the transport failed
(`client.request(req).await` returned `Err`), or a response with some
status code arrived. -/
inductive HttpOutcome
  | transportFailure
  | response (status : Nat)
deriving DecidableEq, Repr

/-- From `src/worker/src/payment_processor.rs` lines 76-94, the
classification tail of `PaymentProcessor::process` (serialization and
request building, which precede the exchange and cannot fail on the fixed
request shape, are outside the claim): transport error maps to
`Unavailable`; then `status == 422` to `InvalidPayment`; then
`status >= 500 || status == 429 || status == 408` to `Unavailable`;
everything else is `Ok(())`. -/
def PaymentProcessor.classify (outcome : HttpOutcome) :
    Except PaymentProcessorError Unit :=
  match outcome with
  | HttpOutcome.transportFailure => Except.error PaymentProcessorError.Unavailable
  | HttpOutcome.response status =>
    if status = 422 then
      Except.error PaymentProcessorError.InvalidPayment
    else if 500 ≤ status ∨ status = 429 ∨ status = 408 then
      Except.error PaymentProcessorError.Unavailable
    else
      Except.ok ()

/-- The classification exactly as the specification words it (C3), for
refinement against `PaymentProcessor.classify`: 422 is terminal, 408/429/5xx
and transport failures are retryable, everything else is accepted. -/
def specClassification (outcome : HttpOutcome) :
    Except PaymentProcessorError Unit :=
  match outcome with
  | HttpOutcome.transportFailure => Except.error PaymentProcessorError.Unavailable
  | HttpOutcome.response status =>
    if status = 422 then
      Except.error PaymentProcessorError.InvalidPayment
    else if status = 408 ∨ status = 429 ∨ 500 ≤ status then
      Except.error PaymentProcessorError.Unavailable
    else
      Except.ok ()

/-- C3: for every HTTP outcome — any status code, or a connect/transport
failure — the code's response classification in `PaymentProcessor::process`
agrees with the specification's classification: 422 ↦ InvalidPayment;
408, 429 and every status ≥ 500 ↦ Unavailable; transport failure ↦
Unavailable; every other status (all 2xx included) ↦ Ok. -/
theorem process_status_classification :
    ∀ outcome : HttpOutcome,
      PaymentProcessor.classify outcome = specClassification outcome := by
  intro outcome
  cases outcome with
  | transportFailure => rfl
  | response status =>
    simp only [PaymentProcessor.classify, specClassification]
    by_cases h422 : status = 422
    · simp [h422]
    · by_cases h5 : 500 ≤ status
      · simp [h422, h5]
      · by_cases h429 : status = 429
        · simp [h422, h5, h429]
        · by_cases h408 : status = 408
          · simp [h422, h5, h429, h408]
          · simp [h422, h5, h429, h408]

/-- Constants of `src/worker/src/worker_pool.rs` lines 39-43. -/
def BUFFER_SIZE : Nat := 32768

/-- Maximum retry attempts before a message is dropped. -/
def MAX_RETRIES : Nat := 50

/-- Base backoff delay in milliseconds. -/
def BASE_BACKOFF_MS : Nat := 500

/-- Backoff delay cap in milliseconds. -/
def MAX_BACKOFF_MS : Nat := 2000

/-- From `src/worker/src/worker_pool.rs` lines 225-234, `calc_backoff`:
`delay = min(BASE_BACKOFF_MS * (1 << min(retry_count, 10)), MAX_BACKOFF_MS)`;
`jitter_range = (delay as f64 * 0.2) as u64` — for every delay this
function produces (a multiple of 500 that is at most 2000) the f64
product `delay * 0.2_f64` rounds to exactly `delay / 5`, so the integer
division below is the value the code computes;
`pseudo = (retry_count.wrapping_mul(1103515245)).wrapping_add(12345) as u64`
is u32 wrapping arithmetic; `jitter = pseudo % max(2 * jitter_range, 1)`;
the result is `delay - jitter_range + jitter` (the saturating ops never
saturate since `jitter_range ≤ delay` and everything stays far below
`2^64`). -/
def calc_backoff (retry_count : Nat) : Nat :=
  let delay := min (BASE_BACKOFF_MS * 2 ^ (min retry_count 10)) MAX_BACKOFF_MS
  let jitter_range := delay / 5
  let pseudo := (retry_count * 1103515245 + 12345) % U32_MOD
  let jitter := pseudo % (max (2 * jitter_range) 1)
  delay - jitter_range + jitter

/-- The claim's target delay `d(rc) = min(500 · 2^min(rc,10), 2000)` ms. -/
def backoffTarget (retry_count : Nat) : Nat :=
  min (500 * 2 ^ (min retry_count 10)) 2000

/-- C4: for every retry count `1 ≤ rc ≤ 50`, `calc_backoff rc` (a
deterministic function of `rc` alone) lies within ±20% of
`d = min(500 · 2^min(rc,10), 2000)`: stated over naturals as
`8·d ≤ 10·calc_backoff rc ≤ 12·d`. -/
theorem calc_backoff_within_jitter_bounds (rc : Nat) (h1 : 1 ≤ rc) (h50 : rc ≤ 50) :
    8 * backoffTarget rc ≤ 10 * calc_backoff rc ∧
      10 * calc_backoff rc ≤ 12 * backoffTarget rc := by
  interval_cases rc <;> exact ⟨by decide, by decide⟩

/-- Witness for C4 at `rc = 3`: the hypotheses hold and the bounds follow
from the theorem itself. -/
theorem calc_backoff_within_jitter_bounds_witness :
    8 * backoffTarget 3 ≤ 10 * calc_backoff 3 ∧
      10 * calc_backoff 3 ≤ 12 * backoffTarget 3 :=
  calc_backoff_within_jitter_bounds 3 (by decide) (by decide)

/-- A scheduler entry (`struct RetryItem` of `src/worker/src/worker_pool.rs`):
a message plus its `next_attempt` instant. `tokio::time::Instant` is an
opaque totally ordered monotonic clock value, modelled as `Nat`
(nanoseconds). -/
structure RetryItem where
  msg : PaymentMessage
  next_attempt : Nat
deriving DecidableEq, Repr

/-- From `src/worker/src/worker_pool.rs` lines 64-68, `impl Ord for
RetryItem`: `self.cmp(other) = other.next_attempt.cmp(&self.next_attempt)` —
the comparison of the instants, inverted. -/
def RetryItem.cmp (a b : RetryItem) : Ordering :=
  compare b.next_attempt a.next_attempt

/-- One step of a max-reduction under `RetryItem.cmp`: keep the current
candidate unless the next element compares strictly greater. -/
def popStep (acc : Option RetryItem) (y : RetryItem) : Option RetryItem :=
  match acc with
  | none => some y
  | some x => if RetryItem.cmp x y = Ordering.lt then some y else some x

/-- What `BinaryHeap::pop` returns on a heap holding the items of `l`:
a maximal element of `l` under `RetryItem.cmp` (`BinaryHeap` is a max-heap
over the element's `Ord`). This fold exhibits one such maximum. -/
def popCandidate (l : List RetryItem) : Option RetryItem :=
  l.foldl popStep none

/-- From `src/worker/src/worker_pool.rs` lines 204-223, `retry`: if
`retry_count ≥ MAX_RETRIES` the message is dropped (nothing is offered to
the scheduler channel); otherwise `retry_count` is incremented, the backoff
is computed from the NEW count, and a single `RetryItem` with
`next_attempt = now + delay` is offered to the channel via `try_send`.
`now` is the current instant in milliseconds-compatible units. -/
def WorkerPool.retry (now : Nat) (msg : PaymentMessage) : Option RetryItem :=
  if msg.retry_count ≥ MAX_RETRIES then
    none
  else
    let msg' : PaymentMessage := { msg with retry_count := msg.retry_count + 1 }
    some { msg := msg', next_attempt := now + calc_backoff msg'.retry_count }

/-- C5: `retry` drops the message exactly when `retry_count ≥ 50`, and
otherwise offers exactly one item to the scheduler channel, carrying the
same amount and correlation id with `retry_count` incremented by exactly
one — hence never decreased. -/
theorem retry_drop_or_increment (now : Nat) (msg : PaymentMessage) :
    (MAX_RETRIES ≤ msg.retry_count → WorkerPool.retry now msg = none) ∧
    (msg.retry_count < MAX_RETRIES →
      WorkerPool.retry now msg =
        some { msg := { amount := msg.amount,
                        correlation_id := msg.correlation_id,
                        retry_count := msg.retry_count + 1 },
               next_attempt := now + calc_backoff (msg.retry_count + 1) }) ∧
    (∀ item : RetryItem, WorkerPool.retry now msg = some item →
      msg.retry_count ≤ item.msg.retry_count) := by
  refine ⟨?_, ?_, ?_⟩
  · intro h
    simp [WorkerPool.retry, h]
  · intro h
    simp [WorkerPool.retry, Nat.not_le.mpr h]
  · intro item h
    by_cases hge : MAX_RETRIES ≤ msg.retry_count
    · simp [WorkerPool.retry, hge] at h
    · simp [WorkerPool.retry, hge] at h
      rw [← h]
      exact Nat.le_succ _

/-- Witness for C5 at a message with `retry_count = 49` and `now = 1000`:
both branches of the theorem are exercised where applicable. -/
theorem retry_drop_or_increment_witness :
    WorkerPool.retry 1000
        { amount := ⟨1000, 2⟩, correlation_id := 7, retry_count := 49 } =
      some { msg := { amount := ⟨1000, 2⟩, correlation_id := 7, retry_count := 50 },
             next_attempt := 1000 + calc_backoff 50 } :=
  (retry_drop_or_increment 1000
      { amount := ⟨1000, 2⟩, correlation_id := 7, retry_count := 49 }).2.1
    (by decide)

/-- Folding `popStep` from a seed candidate yields an element of the seed
or the list whose `next_attempt` is minimal among all of them. -/
lemma foldl_popStep_spec (l : List RetryItem) :
    ∀ a : RetryItem,
      ∃ x, l.foldl popStep (some a) = some x ∧ (x = a ∨ x ∈ l) ∧
        x.next_attempt ≤ a.next_attempt ∧
        ∀ y ∈ l, x.next_attempt ≤ y.next_attempt := by
  induction l with
  | nil =>
    intro a
    exact ⟨a, rfl, Or.inl rfl, Nat.le_refl _, by simp⟩
  | cons z t ih =>
    intro a
    by_cases hlt : RetryItem.cmp a z = Ordering.lt
    · have hza : z.next_attempt < a.next_attempt := by
        have := Nat.compare_eq_lt.mp hlt
        exact this
      obtain ⟨x, hfold, hmem, hle, hall⟩ := ih z
      refine ⟨x, ?_, ?_, ?_, ?_⟩
      · simpa [List.foldl, popStep, hlt] using hfold
      · rcases hmem with rfl | hx
        · exact Or.inr (List.mem_cons_self _ _)
        · exact Or.inr (List.mem_cons_of_mem _ hx)
      · exact Nat.le_trans hle (Nat.le_of_lt hza)
      · intro y hy
        rcases List.mem_cons.mp hy with rfl | hy
        · exact hle
        · exact hall y hy
    · have haz : a.next_attempt ≤ z.next_attempt := by
        have := Nat.compare_eq_lt.not.mp hlt
        omega
      obtain ⟨x, hfold, hmem, hle, hall⟩ := ih a
      refine ⟨x, ?_, ?_, hle, ?_⟩
      · simpa [List.foldl, popStep, hlt] using hfold
      · rcases hmem with rfl | hx
        · exact Or.inl rfl
        · exact Or.inr (List.mem_cons_of_mem _ hx)
      · intro y hy
        rcases List.mem_cons.mp hy with rfl | hy
        · exact Nat.le_trans hle haz
        · exact hall y hy

/-- C6: the `Ord` on `RetryItem` is the inverse of the natural order of the
`next_attempt` instants — `a.cmp b = gt` exactly when `a.next_attempt <
b.next_attempt` and `a.cmp b = eq` exactly when the instants coincide — and
consequently a maximal element under this order (what the max-heap
`BinaryHeap::pop` yields) belongs to the heap's contents and has the
smallest `next_attempt` among them. -/
theorem retry_item_ord_is_min_heap :
    (∀ a b : RetryItem,
        (RetryItem.cmp a b = Ordering.gt ↔ a.next_attempt < b.next_attempt) ∧
        (RetryItem.cmp a b = Ordering.eq ↔ a.next_attempt = b.next_attempt)) ∧
    (∀ (l : List RetryItem) (x : RetryItem),
        popCandidate l = some x →
          x ∈ l ∧ ∀ y ∈ l, x.next_attempt ≤ y.next_attempt) := by
  constructor
  · intro a b
    constructor
    · exact Nat.compare_eq_gt
    · exact Iff.trans Nat.compare_eq_eq eq_comm
  · intro l x h
    cases l with
    | nil => cases h
    | cons z t =>
      have hpc : popCandidate (z :: t) = t.foldl popStep (some z) := rfl
      obtain ⟨x', hfold, hmem, hle, hall⟩ := foldl_popStep_spec t z
      have hxx : x' = x := by
        have := hpc ▸ h
        rw [hfold] at this
        exact Option.some.inj this
      subst hxx
      constructor
      · rcases hmem with rfl | hx
        · exact List.mem_cons_self _ _
        · exact List.mem_cons_of_mem _ hx
      · intro y hy
        rcases List.mem_cons.mp hy with rfl | hy
        · exact hle
        · exact hall y hy

/-- A concrete retry item used by witnesses. -/
def wItemEarly : RetryItem where
  msg := { amount := ⟨500, 2⟩, correlation_id := 1, retry_count := 0 }
  next_attempt := 100

/-- A second concrete retry item with a later `next_attempt`. -/
def wItemLate : RetryItem where
  msg := { amount := ⟨700, 2⟩, correlation_id := 2, retry_count := 3 }
  next_attempt := 900

/-- Witness for C6 on the two-element heap `[late, early]`: the fold picks
the early item, it is a member, and its instant is minimal. -/
theorem retry_item_ord_is_min_heap_witness :
    wItemEarly ∈ [wItemLate, wItemEarly] ∧
      ∀ y ∈ [wItemLate, wItemEarly],
        wItemEarly.next_attempt ≤ y.next_attempt :=
  retry_item_ord_is_min_heap.2 [wItemLate, wItemEarly] wItemEarly (by decide)

/-- The write a store-loop iteration performs against the database. -/
inductive DbAction
  | noWrite
  | singleInsert (p : Payment)
  | batchCopy (ps : List Payment)
deriving DecidableEq, Repr

/-- Whether the iteration continues (channel still open) or exits
(channel disconnected). -/
inductive IterOutcome
  | continueLoop (act : DbAction)
  | exitLoop (act : DbAction)
deriving DecidableEq, Repr

/-- The column list of the binary COPY statement in `Store::batch_payments`:
`COPY payments (amount, requested_at, service_used, correlation_id) FROM
STDIN BINARY`. -/
def copyColumns : List String :=
  ["amount", "requested_at", "service_used", "correlation_id"]

/-- From `src/worker/src/store.rs` lines 49-80, one iteration of
`Store::insert_loop`. `buffer` is the local buffer at the top of the
iteration, `avail` the items `try_recv` yields before the channel reports
`Empty` (continue) or `Disconnected` (exit), `disconnected` which of the
two ended the drain. On disconnect the non-empty buffer is flushed as one
batch and the loop returns; otherwise a singleton buffer goes through the
prepared-statement insert (`buffer.pop()`), a longer one through one COPY
batch (`std::mem::take`), an empty one writes nothing; the returned list
is the buffer carried into the next iteration. -/
def Store.insertIteration (buffer avail : List Payment) (disconnected : Bool) :
    IterOutcome × List Payment :=
  let buf := buffer ++ avail
  if disconnected then
    (IterOutcome.exitLoop
        (if buf.isEmpty then DbAction.noWrite else DbAction.batchCopy buf),
      buf)
  else
    match buf with
    | [] => (IterOutcome.continueLoop DbAction.noWrite, [])
    | [p] => (IterOutcome.continueLoop (DbAction.singleInsert p), [])
    | ps => (IterOutcome.continueLoop (DbAction.batchCopy ps), [])

/-- C8: from an empty buffer (the invariant at the top of every iteration,
re-established by the last conjunct): a disconnected channel flushes the
drained items as one batch when non-empty and exits; exactly one drained
item goes through the single prepared-statement insert; two or more go
through one binary COPY batch carrying all of them, on columns
`(amount, requested_at, service_used, correlation_id)`; no drained item
writes nothing. Every continuing iteration hands an empty buffer to the
next one. -/
theorem insert_loop_iteration_behavior :
    (∀ avail : List Payment,
        Store.insertIteration [] avail true =
          (IterOutcome.exitLoop
              (if avail.isEmpty then DbAction.noWrite
               else DbAction.batchCopy avail),
            avail)) ∧
    (Store.insertIteration [] [] false =
        (IterOutcome.continueLoop DbAction.noWrite, [])) ∧
    (∀ p : Payment,
        Store.insertIteration [] [p] false =
          (IterOutcome.continueLoop (DbAction.singleInsert p), [])) ∧
    (∀ (p q : Payment) (rest : List Payment),
        Store.insertIteration [] (p :: q :: rest) false =
          (IterOutcome.continueLoop (DbAction.batchCopy (p :: q :: rest)), [])) ∧
    (∀ (buffer avail : List Payment) (d : Bool) (act : DbAction)
        (buf' : List Payment),
        Store.insertIteration buffer avail d = (IterOutcome.continueLoop act, buf') →
          buf' = []) ∧
    copyColumns = ["amount", "requested_at", "service_used", "correlation_id"] := by
  refine ⟨?_, rfl, fun p => rfl, fun p q rest => rfl, ?_, rfl⟩
  · intro avail
    simp [Store.insertIteration]
  · intro buffer avail d act buf' h
    cases d with
    | true => simp [Store.insertIteration] at h
    | false =>
      simp only [Store.insertIteration, Bool.false_eq_true, if_false] at h
      split at h
      · exact (Prod.mk.injEq _ _ _ _ ▸ h).2.symm
      · exact (Prod.mk.injEq _ _ _ _ ▸ h).2.symm
      · exact (Prod.mk.injEq _ _ _ _ ▸ h).2.symm

/-- A concrete payment used by witnesses. -/
def wPayment : Payment where
  amount := ⟨1000, 2⟩
  correlation_id := 42
  processor := ProcessorType.Default
  requested_at := 0

/-- Witness for C8: a singleton drain goes through the single insert, and a
concrete continuing iteration hands an empty buffer onward. -/
theorem insert_loop_iteration_behavior_witness :
    Store.insertIteration [] [wPayment] false =
        (IterOutcome.continueLoop (DbAction.singleInsert wPayment), []) ∧
      ([] : List Payment) = [] :=
  ⟨insert_loop_iteration_behavior.2.2.1 wPayment,
    insert_loop_iteration_behavior.2.2.2.2.1 [] [] false DbAction.noWrite []
      rfl⟩

/-- From `src/loadbalancer/src/load_balancer.rs` lines 92-100,
`UnixLoadBalancer::select_backend`: an empty backend list yields
`Err(NoHealthyBackends)` without touching the counter; otherwise the atomic
counter is fetch-and-incremented (`AtomicUsize::fetch_add` wraps at `2^64`)
and the backend at `old_counter % backend_count` is returned. The state
passed along is the counter value. -/
def select_backend (backends : List String) (counter : Nat) :
    Option String × Nat :=
  if backends.isEmpty then
    (none, counter)
  else
    (backends.get? (counter % backends.length), (counter + 1) % USIZE_MOD)

/-- The counter value before the `n`-th call (0-indexed), starting from the
initial `AtomicUsize::new(0)` and threading the state through
`select_backend`. -/
def selectIter (backends : List String) : Nat → Nat
  | 0 => 0
  | n + 1 => (select_backend backends (selectIter backends n)).2

/-- The backend the `n`-th sequential call (0-indexed) returns. -/
def nthSelect (backends : List String) (n : Nat) : Option String :=
  (select_backend backends (selectIter backends n)).1

/-- The index the `n`-th sequential call selects. -/
def selectedIndex (backends : List String) (n : Nat) : Nat :=
  selectIter backends n % backends.length

/-- How many of the first `M` calls select index `j`. -/
def selectCount (backends : List String) (M j : Nat) : Nat :=
  ((List.range M).filter (fun i => selectedIndex backends i == j)).length

/-- With a non-empty backend list, the counter before the `n`-th call is
`n % 2^64`: the atomic increments by one per call and wraps at `2^64`. -/
lemma selectIter_eq_mod (backends : List String) (hne : ¬backends.isEmpty) :
    ∀ n, selectIter backends n = n % USIZE_MOD := by
  intro n
  induction n with
  | zero => rfl
  | succ n ih =>
    have h1 : (1 : Nat) % USIZE_MOD = 1 := by
      have : (1 : Nat) < USIZE_MOD := by
        simp [USIZE_MOD]
      exact Nat.mod_eq_of_lt this
    calc selectIter backends (n + 1)
        = (select_backend backends (selectIter backends n)).2 := rfl
      _ = (selectIter backends n + 1) % USIZE_MOD := by
          simp [select_backend, hne]
      _ = (n % USIZE_MOD + 1 % USIZE_MOD) % USIZE_MOD := by rw [ih, h1]
      _ = (n + 1) % USIZE_MOD := (Nat.add_mod n 1 USIZE_MOD).symm

/-- Counting residues below a modulus over an initial segment:
among `0, …, M-1` exactly `M / B` or `M / B + 1` numbers are congruent to
`j` (mod `B`), the latter exactly when `j < M % B`. -/
lemma filter_mod_count (B j : Nat) (hB : 0 < B) (hj : j < B) :
    ∀ M, ((List.range M).filter (fun i => i % B == j)).length =
      M / B + (if j < M % B then 1 else 0) := by
  intro M
  induction M with
  | zero => simp
  | succ M ih =>
    have hfs : (List.filter (fun i => i % B == j) [M]).length
        = if M % B = j then 1 else 0 := by
      by_cases h : M % B = j
      · simp [List.filter, h]
      · have hb : (M % B == j) = false := by simp [h]
        simp [List.filter, hb, h]
    rw [List.range_succ, List.filter_append, List.length_append, ih, hfs]
    have hrlt : M % B < B := Nat.mod_lt _ hB
    have hq : M + 1 = B * (M / B) + (M % B + 1) := by
      have hdm := Nat.div_add_mod M B
      omega
    rcases Nat.lt_or_ge (M % B + 1) B with hlt | hge
    · have hdiv : (M + 1) / B = M / B := by
        rw [hq, Nat.mul_add_div hB, Nat.div_eq_of_lt hlt, Nat.add_zero]
      have hmod : (M + 1) % B = M % B + 1 := by
        rw [hq, Nat.mul_add_mod, Nat.mod_eq_of_lt hlt]
      rw [hdiv, hmod]
      split_ifs <;> omega
    · have hMB : M % B + 1 = B := by omega
      have hdiv : (M + 1) / B = M / B + 1 := by
        rw [hq, hMB, Nat.mul_add_div hB, Nat.div_self hB]
      have hmod : (M + 1) % B = 0 := by
        rw [hq, hMB, Nat.mul_add_mod, Nat.mod_self]
      rw [hdiv, hmod]
      split_ifs <;> omega

/-- The ceiling `⌈M/B⌉ = (M + B - 1) / B` is one more than the floor when
`B` does not divide `M`. -/
lemma ceil_div_of_mod_pos (B M : Nat) (hB : 0 < B) (hr : 1 ≤ M % B) :
    (M + B - 1) / B = M / B + 1 := by
  have hrlt : M % B < B := Nat.mod_lt _ hB
  have hshape : M + B - 1 = B * (M / B) + (M % B - 1 + B) := by
    have hdm := Nat.div_add_mod M B
    omega
  have h1 : (M % B - 1) / B = 0 := Nat.div_eq_of_lt (by omega)
  rw [hshape, Nat.mul_add_div hB, Nat.add_div_right _ hB, h1]

/-- C9 counterexample: with three backends, the `2^64`-th sequential call
(0-indexed) does NOT return `backends[2^64 mod 3] = backends[1]`: the
`usize` counter has wrapped back to 0, so the call returns `backends[0]`.
(`2^64 mod 3 = 1`.) -/
theorem select_backend_wraps_at_usize :
    nthSelect ["b0", "b1", "b2"] (2 ^ 64) = some "b0" ∧
    (2 ^ 64) % 3 = 1 ∧
    ["b0", "b1", "b2"].get? ((2 ^ 64) % 3) = some "b1" := by
  have h0 : selectIter ["b0", "b1", "b2"] (2 ^ 64) = 0 := by
    rw [selectIter_eq_mod ["b0", "b1", "b2"] (by decide)]
    simp [USIZE_MOD]
  refine ⟨?_, by norm_num, ?_⟩
  · rw [nthSelect, h0]
    rfl
  · norm_num

/-- C9, amended for the `usize` wraparound: the `i`-th sequential call
returns `backends[(i mod 2^64) mod B]`, and over the first `M ≤ 2^64`
calls each backend index is selected either `⌊M/B⌋` or `⌈M/B⌉` times. -/
theorem select_backend_round_robin (backends : List String)
    (hne : backends ≠ []) :
    (∀ i, nthSelect backends i =
        backends.get? ((i % USIZE_MOD) % backends.length)) ∧
    (∀ M j, M ≤ USIZE_MOD → j < backends.length →
        selectCount backends M j = M / backends.length ∨
        selectCount backends M j = (M + backends.length - 1) / backends.length) := by
  have hne' : ¬backends.isEmpty := by
    cases backends with
    | nil => exact absurd rfl hne
    | cons a l => simp
  have hB : 0 < backends.length := by
    cases backends with
    | nil => exact absurd rfl hne
    | cons a l => simp
  constructor
  · intro i
    rw [nthSelect, selectIter_eq_mod backends hne' i]
    simp [select_backend, hne']
  · intro M j hM hj
    have hcount : selectCount backends M j =
        ((List.range M).filter (fun i => i % backends.length == j)).length := by
      unfold selectCount
      congr 1
      apply List.filter_congr
      intro i hi
      have hiM : i < M := List.mem_range.mp hi
      have hiU : i % USIZE_MOD = i := Nat.mod_eq_of_lt (Nat.lt_of_lt_of_le hiM hM)
      simp [selectedIndex, selectIter_eq_mod backends hne' i, hiU]
    rw [hcount, filter_mod_count backends.length j hB hj M]
    by_cases hlt : j < M % backends.length
    · right
      have hr : 1 ≤ M % backends.length := by omega
      rw [ceil_div_of_mod_pos backends.length M hB hr]
      simp [hlt]
    · left
      simp [hlt]

/-- Witness for C9 (amended): with backends `["b0", "b1", "b2"]`, call 4
returns `b1` (`4 mod 3 = 1`), and over the first 4 calls index 0 is
selected `⌈4/3⌉ = 2` times. -/
theorem select_backend_round_robin_witness :
    nthSelect ["b0", "b1", "b2"] 4 =
        ["b0", "b1", "b2"].get? ((4 % USIZE_MOD) % 3) ∧
      (selectCount ["b0", "b1", "b2"] 4 0 = 4 / 3 ∨
        selectCount ["b0", "b1", "b2"] 4 0 = (4 + 3 - 1) / 3) :=
  ⟨(select_backend_round_robin ["b0", "b1", "b2"] (by decide)).1 4,
    (select_backend_round_robin ["b0", "b1", "b2"] (by decide)).2 4 0
      (by decide) (by decide)⟩

/-- HTTP method of a gateway request, as matched by `echo` in
`src/gateway/src/main.rs` (only GET and POST are distinguished; anything
else falls into the 404 arm). -/
inductive HttpMethod
  | GET
  | POST
  | otherMethod (name : String)
deriving DecidableEq, Repr

/-- A request as `echo` consumes it: the method, the URI path, the decoded
`from` / `to` query parameters (what `parse_query_params` extracts from any
query string), and the collected body bytes. -/
structure GatewayRequest where
  method : HttpMethod
  path : String
  queryFrom : Option String
  queryTo : Option String
  body : List Nat
deriving DecidableEq, Repr

/-- Outcomes of the external effects the gateway handlers perform.
`rfc3339Ok s` is whether `PrimitiveDateTime::parse(s, &Rfc3339)` succeeds
(an external-crate parser, so an oracle); the booleans are the success of
the publisher write path, `pool.get()`, `client.prepare` (whose failure is
`.unwrap()`ed), `client.query` (likewise `.unwrap()`ed) and the purge
`client.execute` (whose failure is handled). -/
structure GatewayEffects where
  rfc3339Ok : String → Bool
  publishAcquireOk : Bool
  publishWriteOk : Bool
  poolGetOk : Bool
  prepareOk : Bool
  queryOk : Bool
  executeOk : Bool

/-- Result of serving one request: either a response with a status code, or
none at all — the handler task died in a panic (`unwrap` / `expect`), so the
connection is torn down without an HTTP response. -/
inductive EchoResult
  | response (status : Nat)
  | noResponse
deriving DecidableEq, Repr

/-- From `src/gateway/src/publisher.rs` lines 66-95, `Publisher::publish`:
acquire a connection (pooled or freshly dialed — failure of both is an
error before anything is written), write the payload bytes, write `\n`,
flush; on success the socket has carried exactly `msg ++ [0x0A]` and the
call returns `Ok`. The returned value on success is the byte stream
written. -/
def Publisher.publish (msg : List Nat) (acquireOk writeOk : Bool) :
    Except Unit (List Nat) :=
  if acquireOk then
    if writeOk then Except.ok (msg ++ [10]) else Except.error ()
  else
    Except.error ()

/-- From `src/gateway/src/main.rs` lines 165-188, the `POST /payments` arm
of `echo`: the collected body bytes are handed to `Publisher::publish`
untouched — no JSON parsing, no validation — and the response is `202` on
`Ok` and `429` on `Err`. The second component is the byte stream published
(none when publishing failed). -/
def paymentsRoute (body : List Nat) (acquireOk writeOk : Bool) :
    Nat × Option (List Nat) :=
  match Publisher.publish body acquireOk writeOk with
  | Except.ok written => (202, some written)
  | Except.error _ => (429, none)

/-- From `src/gateway/src/main.rs` lines 83-150,
`payments_summary_handler` preceded by the query-parameter parsing of the
`GET /payments-summary` arm: a present `from`/`to` that fails RFC 3339
parsing panics (`.expect("Invalid date")`); a failed `pool.get()` answers
`500`; a failed `prepare` or `query` panics (`.unwrap()`); otherwise the
summary is serialized and answered with `200`. -/
def summaryRoute (queryFrom queryTo : Option String) (fx : GatewayEffects) :
    EchoResult :=
  let fromOk := match queryFrom with
    | none => true
    | some s => fx.rfc3339Ok s
  let toOk := match queryTo with
    | none => true
    | some s => fx.rfc3339Ok s
  if fromOk && toOk then
    if fx.poolGetOk then
      if fx.prepareOk && fx.queryOk then EchoResult.response 200
      else EchoResult.noResponse
    else EchoResult.response 500
  else
    EchoResult.noResponse

/-- From `src/gateway/src/main.rs` lines 201-222, the `POST /purge-payments`
arm: failed `pool.get()` answers `500`; a failed `prepare` panics
(`.unwrap()`); a failed `execute` answers `500`; success answers `200`. -/
def purgeRoute (fx : GatewayEffects) : EchoResult :=
  if fx.poolGetOk then
    if fx.prepareOk then
      if fx.executeOk then EchoResult.response 200 else EchoResult.response 500
    else EchoResult.noResponse
  else
    EchoResult.response 500

/-- From `src/gateway/src/main.rs` lines 159-229, the `echo` service
function: route on method and path; `GET /health` answers `200`;
`POST /payments` publishes and answers `202`/`429`; `GET /payments-summary`
and `POST /purge-payments` as modelled above; every other method/path pair
answers `404`. -/
def echo (req : GatewayRequest) (fx : GatewayEffects) : EchoResult :=
  match req.method, req.path with
  | HttpMethod.GET, "/health" => EchoResult.response 200
  | HttpMethod.POST, "/payments" =>
      EchoResult.response (paymentsRoute req.body fx.publishAcquireOk fx.publishWriteOk).1
  | HttpMethod.GET, "/payments-summary" =>
      summaryRoute req.queryFrom req.queryTo fx
  | HttpMethod.POST, "/purge-payments" => purgeRoute fx
  | _, _ => EchoResult.response 404

/-- A summary request whose `from` parameter is not a valid RFC 3339
datetime. -/
def invalidDateRequest : GatewayRequest where
  method := HttpMethod.GET
  path := "/payments-summary"
  queryFrom := some "not-a-date"
  queryTo := none
  body := []

/-- Effects where the RFC 3339 parser rejects every string (in particular
`"not-a-date"`, which no RFC 3339 parser accepts) and everything else
succeeds. -/
def invalidDateEffects : GatewayEffects where
  rfc3339Ok := fun _ => false
  publishAcquireOk := true
  publishWriteOk := true
  poolGetOk := true
  prepareOk := true
  queryOk := true
  executeOk := true

/-- C7 counterexample: a `GET /payments-summary?from=not-a-date` request
makes the handler panic on `.expect("Invalid date")` — the gateway produces
no response at all, let alone one of the five claimed status codes. -/
theorem gateway_surface_counterexample :
    echo invalidDateRequest invalidDateEffects = EchoResult.noResponse := by
  rfl

/-- Totality of the routing: every request either panics in a handler or
gets one of the five surfaced status codes. -/
lemma echo_cases (req : GatewayRequest) (fx : GatewayEffects) :
    echo req fx = EchoResult.noResponse ∨
      ∃ s, echo req fx = EchoResult.response s ∧
        (s = 200 ∨ s = 202 ∨ s = 404 ∨ s = 429 ∨ s = 500) := by
  have hpay : ∀ (body : List Nat) (a w : Bool),
      (paymentsRoute body a w).1 = 202 ∨ (paymentsRoute body a w).1 = 429 := by
    intro body a w
    cases a <;> cases w <;> simp [paymentsRoute, Publisher.publish]
  unfold echo
  split
  · exact Or.inr ⟨200, rfl, by omega⟩
  · refine Or.inr
      ⟨(paymentsRoute req.body fx.publishAcquireOk fx.publishWriteOk).1, rfl, ?_⟩
    rcases hpay req.body fx.publishAcquireOk fx.publishWriteOk with h2 | h2 <;> omega
  · unfold summaryRoute
    dsimp only
    split_ifs with h1 h2 h3
    · exact Or.inr ⟨200, rfl, by omega⟩
    · exact Or.inl rfl
    · exact Or.inr ⟨500, rfl, by omega⟩
    · exact Or.inl rfl
  · unfold purgeRoute
    split_ifs with h1 h2 h3
    · exact Or.inr ⟨200, rfl, by omega⟩
    · exact Or.inr ⟨500, rfl, by omega⟩
    · exact Or.inl rfl
    · exact Or.inr ⟨500, rfl, by omega⟩
  · exact Or.inr ⟨404, rfl, by omega⟩

/-- C7, amended: whenever the gateway does produce a response (no handler
`unwrap`/`expect` panicked), its status code is one of 200, 202, 404, 429,
500. -/
theorem gateway_surface_statuses (req : GatewayRequest) (fx : GatewayEffects)
    (h : echo req fx ≠ EchoResult.noResponse) :
    ∃ s, echo req fx = EchoResult.response s ∧
      (s = 200 ∨ s = 202 ∨ s = 404 ∨ s = 429 ∨ s = 500) := by
  rcases echo_cases req fx with hc | hc
  · exact absurd hc h
  · exact hc

/-- A plain health-check request. -/
def healthRequest : GatewayRequest where
  method := HttpMethod.GET
  path := "/health"
  queryFrom := none
  queryTo := none
  body := []

/-- Witness for the amended C7 at a concrete request and effect outcome. -/
theorem gateway_surface_statuses_witness :
    ∃ s, echo healthRequest invalidDateEffects = EchoResult.response s ∧
      (s = 200 ∨ s = 202 ∨ s = 404 ∨ s = 429 ∨ s = 500) :=
  gateway_surface_statuses healthRequest invalidDateEffects (by decide)

/-- Error enumeration of `src/worker/src/worker_pool.rs` lines 17-24
(payload details elided where the claims never inspect them). -/
inductive WorkerPoolError
  | JsonParseError
  | QueueClosed
  | QueueFull
  | PaymentFailed (e : PaymentProcessorError)
  | ProcessorsUnavailable
deriving DecidableEq, Repr

/-- From `src/worker/src/worker_pool.rs` lines 114-137, `submit_internal`:
with no senders the result is `Err(QueueClosed)`; otherwise the
thread-local round-robin counter picks the worker index (the counter is
kept below the sender count; its successor wraps by `% len`), and
`try_send` either enqueues the message to that worker or fails (any
failure is mapped to `Err(QueueClosed)` and the message is dropped).
`sendOk` is the try-send outcome oracle; the result carries what was
enqueued (worker index and message) and the new counter. -/
def WorkerPool.submit_internal (sendOk : PaymentMessage → Bool)
    (numSenders counter : Nat) (m : PaymentMessage) :
    (Except WorkerPoolError Unit × Option (Nat × PaymentMessage)) × Nat :=
  if numSenders = 0 then
    ((Except.error WorkerPoolError.QueueClosed, none), counter)
  else
    let next := (counter + 1) % numSenders
    if sendOk m then ((Except.ok (), some (counter, m)), next)
    else ((Except.error WorkerPoolError.QueueClosed, none), next)

/-- From `src/worker/src/worker_pool.rs` lines 107-112, `submit`: the raw
frame bytes are parsed as JSON (`serde_json::from_slice`, an external
parser, so an oracle); a frame that fails to parse is silently discarded
with `Ok(())` — nothing reaches any queue; a frame that parses goes through
`submit_internal`. -/
def WorkerPool.submit (parse : List Nat → Option PaymentMessage)
    (sendOk : PaymentMessage → Bool) (numSenders counter : Nat)
    (bytes : List Nat) :
    (Except WorkerPoolError Unit × Option (Nat × PaymentMessage)) × Nat :=
  match parse bytes with
  | some m => WorkerPool.submit_internal sendOk numSenders counter m
  | none => ((Except.ok (), none), counter)

/-- C10: the gateway applies no validation or parsing to the `POST
/payments` body — for EVERY byte sequence, whenever the publisher write
succeeds the socket has carried exactly the body bytes terminated by a
newline and the response is `202`; a payload the worker-side JSON parse
rejects is discarded there silently (`Ok(())`, nothing enqueued). -/
theorem gateway_publishes_body_unvalidated :
    (∀ (body : List Nat) (a w : Bool) (written : List Nat),
        Publisher.publish body a w = Except.ok written →
          written = body ++ [10] ∧ paymentsRoute body a w = (202, some written)) ∧
    (∀ (parse : List Nat → Option PaymentMessage)
        (sendOk : PaymentMessage → Bool) (numSenders counter : Nat)
        (bytes : List Nat),
        parse bytes = none →
          WorkerPool.submit parse sendOk numSenders counter bytes =
            ((Except.ok (), none), counter)) := by
  constructor
  · intro body a w written h
    cases a <;> cases w <;>
      simp_all [Publisher.publish, paymentsRoute]
  · intro parse sendOk numSenders counter bytes h
    simp [WorkerPool.submit, h]

/-- Witness for C10: the byte sequence `[0x7b]` (a lone opening brace, not
valid JSON) is published verbatim with a trailing newline and answered 202,
and a parser that rejects it makes the worker drop it silently. -/
theorem gateway_publishes_body_unvalidated_witness :
    ([123, 10] = [123] ++ [10] ∧
        paymentsRoute [123] true true = (202, some [123, 10])) ∧
      WorkerPool.submit (fun _ => none) (fun _ => true) 4 0 [123] =
        ((Except.ok (), none), 0) :=
  ⟨gateway_publishes_body_unvalidated.1 [123] true true [123, 10] rfl,
    gateway_publishes_body_unvalidated.2 (fun _ => none) (fun _ => true) 4 0
      [123] rfl⟩

end Rinha
